import Mathlib

/-!
Shallow embedding of the swb-ix repository (Rust) for checking its
natural-language specification.

Sources embedded:
- `src/app/client.rs`: `AppClient::get_multiple_accounts` (chunked batch
  fetch), the rate-budget semaphore set up in `AppClient::new`, and the
  acquire/RPC event order of every RPC-issuing method.
- `src/swb.rs`: the gateway-failover retry loops of
  `execute_pull_feed_submit_consensus_response` and
  `execute_pull_feed_submit_response`, and the gateway-resolution
  `filter_map` over fetched oracle accounts.
- `src/utils.rs`: `parse_swb_ignore_alignment`, the submission encoding in
  `get_solana_submit_signatures_ix`, `extract_consensus_values`,
  `extract_oracle_keys`, `build_secp_signatures` and
  `get_update_consensus_ix`.

External collaborators (the solana/switchboard/rust_decimal crates and the
hex/base64 decoders) are not reimplemented: they enter as parameters of the
embedded functions, exactly at the call boundary the source uses them.
Machine integers are modelled as `Nat`/`Int`; Rust panics (out-of-bounds
indexing/slicing, `unwrap` on `None`) are modelled as an explicit `panik`
outcome.
-/

/-! ## Gateway failover loops (`src/swb.rs`)

Both submission pipelines run the same retry loop shape:

```rust
let mut retry = 0;
let max_retry = queue_gateways.len();
loop {
    let gateway = &queue_gateways[retry];        // consensus pipeline
    // let gateway = &queue_gateways[retry + 8]; // per-oracle pipeline
    match fetch(gateway) {
        Err(_) => { retry += 1;
                    if retry < max_retry { continue; }
                    return; /* exhausted, after logging last error */ }
        Ok(r) => { result = r; break; }
    }
}
```

The loop is embedded structurally over the suffix `queue_gateways.drop retry`
of the gateway list: the suffix is non-empty iff `retry < max_retry`, and the
`retry + 1 < max_retry` continue-check holds iff the suffix has at least two
elements. `attempts` counts loop iterations that dispatched a request.
An index out of bounds (Rust panic) is the `panik` outcome. -/

/-- Outcome of a failover loop run: success with a response after a number of
attempts, exhaustion with the last error after a number of attempts, or a
Rust panic (out-of-bounds index). -/
inductive RunResult (ε ρ : Type) where
  | success : ρ → Nat → RunResult ε ρ
  | exhausted : ε → Nat → RunResult ε ρ
  | panik : RunResult ε ρ
deriving DecidableEq, Repr

/-- Retry loop of `execute_pull_feed_submit_consensus_response`
(`src/swb.rs:128-158`): dispatches to `queue_gateways[retry]`, on failure
increments `retry` and continues while `retry < max_retry`. `rest` is the
suffix of the gateway list from the current `retry` index; entering the loop
body with an empty suffix is the out-of-bounds index `queue_gateways[retry]`,
a panic. -/
def submitConsensusRetryLoop (fetch : α → Except ε ρ) :
    List α → Nat → RunResult ε ρ
  | [], _ => .panik
  | g :: rest, attempts =>
    match fetch g with
    | .ok r => .success r (attempts + 1)
    | .error e =>
      match rest with
      | [] => .exhausted e (attempts + 1)
      | _ :: _ => submitConsensusRetryLoop fetch rest (attempts + 1)

/-- Retry loop of `execute_pull_feed_submit_response` (`src/swb.rs:308-337`):
identical to `submitConsensusRetryLoop` except that the dispatch indexes
`queue_gateways[retry + 8]`. Relative to the current suffix `rest`
(`= queue_gateways.drop retry`), the dispatched gateway is the head of
`rest.drop 8`, and the index is out of bounds (panic) when `rest.drop 8` is
empty. The continue-check is unchanged (`retry + 1 < max_retry`, i.e. `rest`
has at least two elements). -/
def submitResponseRetryLoop (fetch : α → Except ε ρ) :
    List α → Nat → RunResult ε ρ
  | [], _ => .panik
  | g₀ :: rest, attempts =>
    match (g₀ :: rest).drop 8 with
    | [] => .panik
    | g :: _ =>
      match fetch g with
      | .ok r => .success r (attempts + 1)
      | .error e =>
        match rest with
        | [] => .exhausted e (attempts + 1)
        | _ :: _ => submitResponseRetryLoop fetch rest (attempts + 1)

/-! ## Chunked batch account fetch (`src/app/client.rs:158-199`)

`get_multiple_accounts` early-returns `[]` on an empty key list, otherwise
splits the keys with `as_chunks::<5>` into full 5-key chunks plus the
remainder (the remainder is pushed unconditionally, even when empty), fetches
every chunk concurrently with `buffer_unordered(limit.unwrap_or(5))`, replaces
a failed chunk fetch by a same-length sequence of `None`, collects the chunk
results, and flattens them.

`buffer_unordered` yields chunk results in *completion* order, so the embedded
function takes the completion order as a parameter: a list of chunk indices
stating which dispatched chunk finished first, second, … A run of the real
code corresponds to a `completionOrder` that is a permutation of
`List.range (chunkify keys).length`; with a concurrency limit of 1 only the
identity permutation is realisable, with limit ≥ 2 adjacent chunks may
complete in either order. Keys and accounts are modelled as `Nat`. -/

/-- Chunking performed by `as_chunks::<5>` followed by the unconditional
`chunked_accounts_pubkey.push(remainder.to_vec())`: all full 5-element chunks
in order, then the (possibly empty) remainder. -/
def chunkify : List α → List (List α)
  | a :: b :: c :: d :: e :: rest => [a, b, c, d, e] :: chunkify rest
  | rest => [rest]

/-- One chunk fetch: the RPC call either fails (`none`), in which case the
code substitutes `chunk.length` absent entries, or returns the per-key
optional accounts. -/
def fetchChunk (rpc : List Nat → Option (List (Option Nat))) (c : List Nat) :
    List (Option Nat) :=
  match rpc c with
  | none => List.replicate c.length none
  | some accounts => accounts

/-- `AppClient::get_multiple_accounts`, parameterised by the chunk-level RPC
(`rpc`) and by the `buffer_unordered` completion order (`completionOrder`,
a permutation of the chunk indices): chunk results are collected in completion
order and flattened. -/
def get_multiple_accounts (rpc : List Nat → Option (List (Option Nat)))
    (completionOrder : List Nat) (keys : List Nat) : List (Option Nat) :=
  if keys.length = 0 then []
  else
    (completionOrder.map fun i =>
      ((chunkify keys).map (fetchChunk rpc)).getD i []).flatten

/-! ## Feed account decoding (`src/utils.rs:322-337`)

```rust
pub fn parse_swb_ignore_alignment(data: Ref<&mut [u8]>) -> AppResult<PullFeedAccountData> {
    if data.len() < 8 { return Err(AppError::SwitchboardInvalidAccount); }
    if &data[..8] != PullFeedAccountData::DISCRIMINATOR {
        return Err(AppError::SwitchboardInvalidAccount);
    }
    let feed = bytemuck::try_pod_read_unaligned::<PullFeedAccountData>(
        &data[8..8 + std::mem::size_of::<PullFeedAccountData>()],
    ).map_err(|_| AppError::SwitchboardInvalidAccount)?;
    Ok(feed)
}
```

The expected discriminator, the record size and the byte-reinterpretation
`bytemuck::try_pod_read_unaligned` come from external crates and are
parameters of the embedding. The slice `&data[8..8 + recordSize]` panics in
Rust when `8 + recordSize > data.len()`; this is the `panik` outcome. Bytes
are modelled as `Nat`. -/

/-- Result of decoding a feed account: the decoded record, the
`SwitchboardInvalidAccount` error, or a Rust panic (out-of-bounds slice). -/
inductive ParseResult (φ : Type) where
  | ok : φ → ParseResult φ
  | invalidAccount : ParseResult φ
  | panik : ParseResult φ
deriving DecidableEq, Repr

/-- `parse_swb_ignore_alignment`, parameterised by the expected 8-byte
discriminator `disc`, the record size `recordSize`
(`size_of::<PullFeedAccountData>()`) and the alignment-agnostic
reinterpretation `reinterpret` (`bytemuck::try_pod_read_unaligned`, `none`
modelling its error). -/
def parse_swb_ignore_alignment (disc : List Nat) (recordSize : Nat)
    (reinterpret : List Nat → Option φ) (data : List Nat) : ParseResult φ :=
  if data.length < 8 then .invalidAccount
  else if data.take 8 ≠ disc then .invalidAccount
  else if 8 + recordSize ≤ data.length then
    match reinterpret ((data.drop 8).take recordSize) with
    | none => .invalidAccount
    | some feed => .ok feed
  else .panik

/-! ## Rate budget (`src/app/client.rs:94-142`)

`AppClient::new` creates a tokio `Semaphore` with `rqs_rate = 15` permits and
spawns a refill task that, on every tick of a 15-second interval, reads
`available_permits()` and calls `add_permits(rqs_rate - available)` when
`available < rqs_rate` (and adds nothing otherwise). Each RPC method acquires
one permit (`let _permit = self.semaphore.acquire().await?`) and releases it
when `_permit` is dropped at the end of the method.

The system is embedded as an interleaving transition system. A state records
the available permit count, the number of outstanding (acquired, not yet
released) permits, and the refill task's pending snapshot between its
`available_permits()` read and its `add_permits` call (`none` when the task
is waiting for the next tick). Steps: acquiring a permit, releasing a permit
at call completion, the refill task reading the available count, and the
refill task adding the computed top-up. -/

/-- Capacity of the rate budget (`rqs_rate` in `AppClient::new`). -/
def rqsRate : Nat := 15

/-- State of the rate-budget semaphore together with the refill task:
`available` permits in the semaphore, `outstanding` acquired-but-unreleased
permits, and the refill task's snapshot of `available_permits()` taken at the
current tick (`none` between ticks). -/
structure BudgetState where
  available : Nat
  outstanding : Nat
  pending : Option Nat
deriving DecidableEq, Repr

/-- Interleaved transitions of the rate budget: permit acquisition (enabled
when a permit is available), permit release at call completion (enabled when
a permit is outstanding), the refill task's read of the available count at a
tick, and the refill task's subsequent `add_permits` of
`rqs_rate - snapshot` (zero when the snapshot is at least `rqs_rate`). -/
inductive BudgetStep : BudgetState → BudgetState → Prop where
  | acquire (a o : Nat) (p : Option Nat) (h : 0 < a) :
      BudgetStep ⟨a, o, p⟩ ⟨a - 1, o + 1, p⟩
  | release (a o : Nat) (p : Option Nat) (h : 0 < o) :
      BudgetStep ⟨a, o, p⟩ ⟨a + 1, o - 1, p⟩
  | tickRead (a o : Nat) :
      BudgetStep ⟨a, o, none⟩ ⟨a, o, some a⟩
  | tickAdd (a o s : Nat) :
      BudgetStep ⟨a, o, some s⟩
        ⟨a + (if s < rqsRate then rqsRate - s else 0), o, none⟩

/-- Initial state: `Semaphore::new(rqs_rate)` with no outstanding permits and
the refill task waiting for its first tick. -/
def budgetInit : BudgetState := ⟨rqsRate, 0, none⟩

/-- States reachable from the initial rate-budget state by interleaved
acquisitions, releases and refill-tick steps. -/
def BudgetReachable (s : BudgetState) : Prop :=
  Relation.ReflTransGen BudgetStep budgetInit s

/-! ## Acquire/RPC event order of the RPC methods (`src/app/client.rs`)

Each `AppClient` method is abstracted to the sequence of budget and RPC
events it performs, in program order:

- `get_account`, `get_latest_blockhash`, `get_slot`
  (`src/app/client.rs:144-156, 201-206`): acquire one permit, then one RPC
  request; when the semaphore is closed the acquire fails and no RPC is sent.
- `get_multiple_accounts` (`src/app/client.rs:158-199`): early return without
  any event on an empty key list; otherwise acquire one permit, then one RPC
  request per dispatched chunk.
- `call_instructions` (`src/app/client.rs:34-82`): builds and signs the
  transaction, then sends the `simulate_transaction` RPC request — with no
  semaphore acquisition anywhere in the method; when compilation or signing
  fails it returns before any RPC.

The `budgetOpen` parameter is whether the semaphore is open (acquire
succeeds) or closed/shut down (acquire fails); `compileOk` is whether message
compilation and signing succeed. -/

/-- Budget/RPC events of an `AppClient` method, in program order: a
successful permit acquisition, a failed permit acquisition (semaphore shut
down), or an RPC request being sent. -/
inductive RpcEv where
  | acq : RpcEv
  | acqFail : RpcEv
  | rpc : RpcEv
deriving DecidableEq, Repr

/-- Helper for `acqBeforeRpc`: `seen` records whether a successful
acquisition has already occurred. -/
def acqBeforeRpcAux : Bool → List RpcEv → Bool
  | _, [] => true
  | _, .acq :: rest => acqBeforeRpcAux true rest
  | seen, .acqFail :: rest => acqBeforeRpcAux seen rest
  | seen, .rpc :: rest => seen && acqBeforeRpcAux seen rest

/-- Every RPC request in the event trace is preceded by an earlier successful
budget acquisition. -/
def acqBeforeRpc (tr : List RpcEv) : Bool :=
  acqBeforeRpcAux false tr

/-- Event trace of `AppClient::get_account` (`src/app/client.rs:144-149`). -/
def get_account_events (budgetOpen : Bool) : List RpcEv :=
  if budgetOpen then [.acq, .rpc] else [.acqFail]

/-- Event trace of `AppClient::get_latest_blockhash`
(`src/app/client.rs:151-156`). -/
def get_latest_blockhash_events (budgetOpen : Bool) : List RpcEv :=
  if budgetOpen then [.acq, .rpc] else [.acqFail]

/-- Event trace of `AppClient::get_slot` (`src/app/client.rs:201-206`). -/
def get_slot_events (budgetOpen : Bool) : List RpcEv :=
  if budgetOpen then [.acq, .rpc] else [.acqFail]

/-- Event trace of `AppClient::get_multiple_accounts`
(`src/app/client.rs:158-199`): nothing on an empty key list, otherwise one
acquisition followed by one RPC request per dispatched chunk. -/
def get_multiple_accounts_events (budgetOpen : Bool) (keys : List Nat) :
    List RpcEv :=
  if keys.length = 0 then []
  else if budgetOpen then
    .acq :: List.replicate (chunkify keys).length .rpc
  else [.acqFail]

/-- Event trace of `AppClient::call_instructions`
(`src/app/client.rs:34-82`): the `simulate_transaction` RPC request without
any budget acquisition (or nothing, when compilation/signing fails first). -/
def call_instructions_events (compileOk : Bool) : List RpcEv :=
  if compileOk then [.rpc] else []

/-! ## Gateway resolution from oracle accounts (`src/swb.rs:77-100, 257-280`)

Both pipelines run the same `filter_map` over the result of
`get_multiple_accounts` on the queue's oracle keys:

```rust
.filter_map(|(account, oracle_pubkey)| {
    let Some(oracle_account) = account else { /* warn */ return None; };
    let bytes_data = &oracle_account.data[8..];
    let oracle_account_data: &OracleAccountData =
        bytemuck::try_from_bytes(bytes_data).unwrap();
    let gateway_uri = oracle_account_data.gateway_uri();
    let Some(gateway_uri) = gateway_uri else { return None; };
    Some(Gateway::new(gateway_uri))
})
```

Absent accounts and records without a gateway URI are skipped; a present
account whose data is shorter than 8 bytes panics at the slice
`&data[8..]`, and one whose trailing bytes fail `bytemuck::try_from_bytes`
(wrong length or misalignment for `OracleAccountData`) panics at the
`unwrap()`. `OracleAccountData` and `bytemuck::try_from_bytes` are external
and enter as a parameter; gateway URIs are modelled as `Nat` and a `Gateway`
by its URI. -/

/-- The single field of the external `OracleAccountData` record this
repository reads: the optional gateway URI. -/
structure OracleAccountData where
  gatewayUri : Option Nat
deriving DecidableEq, Repr

/-- A fetched Solana account, reduced to the single field the resolver
reads: its data bytes. -/
structure SolAccount where
  data : List Nat
deriving DecidableEq, Repr

/-- Outcome of gateway resolution: the ordered gateway list, or a Rust panic
(out-of-bounds slice or `unwrap` of a failed reinterpretation). -/
inductive ResolveResult where
  | ok : List Nat → ResolveResult
  | panik : ResolveResult
deriving DecidableEq, Repr

/-- The gateway-resolution `filter_map` of both pipelines, parameterised by
the external `bytemuck::try_from_bytes::<OracleAccountData>` reinterpretation
(`none` modelling its error). -/
def resolveGateways (reinterpret : List Nat → Option OracleAccountData) :
    List (Option SolAccount) → ResolveResult
  | [] => .ok []
  | none :: rest => resolveGateways reinterpret rest
  | some account :: rest =>
    if account.data.length < 8 then .panik
    else
      match reinterpret (account.data.drop 8) with
      | none => .panik
      | some record =>
        match record.gatewayUri with
        | none => resolveGateways reinterpret rest
        | some uri =>
          match resolveGateways reinterpret rest with
          | .panik => .panik
          | .ok gateways => .ok (uri :: gateways)

/-! ## Per-oracle submission encoding (`src/utils.rs:35-89, 124-150`)

The loop body of `get_solana_submit_signatures_ix`:

```rust
let mut value_i128 = i128::MAX;
if let Some(mut val) = value {
    val.rescale(18);
    value_i128 = val.mantissa();
}
submissions.push(Submission { value: value_i128, signature, recovery_id, offset: 0 });
```

`rust_decimal::Decimal` is external; it is modelled as a mantissa/scale pair
and its `rescale` method enters as a parameter, constrained in theorems by
its documented behaviour on the inputs in question (rescaling to the decimal
scale the value already has leaves it unchanged). `get_oracle_submissions`
(`src/utils.rs:124-150`) decodes a reported integer value `X` with
`Decimal::from_i128_with_scale(X, 18)`, i.e. mantissa `X` at scale 18. -/

/-- The external `rust_decimal::Decimal`, reduced to the two observations the
repository makes of it: its `mantissa()` and its decimal `scale()`. (The real
type constrains the mantissa to 96 bits; the claims quantify only over values
the crate can represent.) -/
structure RustDecimal where
  mantissa : Int
  scale : Nat
deriving DecidableEq, Repr

/-- `Decimal::from_i128_with_scale(m, s)`: mantissa `m` at scale `s` (the
crate panics when `m` exceeds 96 bits; callers in this repository pass parsed
reported values). -/
def fromI128WithScale (m : Int) (s : Nat) : RustDecimal := ⟨m, s⟩

/-- `i128::MAX`, the sentinel submission value for an absent oracle value. -/
def i128Max : Int := 2 ^ 127 - 1

/-- The fields of the external `OracleResponse` that the submission encoding
reads: the optional decoded value, the contributing oracle key, the recovery
id and the signature bytes. -/
structure OracleResponse where
  value : Option RustDecimal
  oracle : Nat
  recoveryId : Nat
  signature : List Nat
deriving DecidableEq, Repr

/-- A `Submission` record as pushed by `get_solana_submit_signatures_ix`:
signed 128-bit value, signature bytes, recovery id and the constant zero
offset. -/
structure Submission where
  value : Int
  signature : List Nat
  recoveryId : Nat
  offset : Nat
deriving DecidableEq, Repr

/-- Loop body of `get_solana_submit_signatures_ix` (`src/utils.rs:43-63`) for
one oracle response, parameterised by the external `Decimal::rescale`
(`rescaleFn d s` is `d` after `d.rescale(s)`): an absent value encodes to the
`i128::MAX` sentinel, a present value is rescaled to scale 18 and encodes to
its mantissa. -/
def encodeSubmission (rescaleFn : RustDecimal → Nat → RustDecimal)
    (r : OracleResponse) : Submission :=
  match r.value with
  | none => ⟨i128Max, r.signature, r.recoveryId, 0⟩
  | some val => ⟨(rescaleFn val 18).mantissa, r.signature, r.recoveryId, 0⟩

/-- The full submission list built by `get_solana_submit_signatures_ix`
(`src/utils.rs:40-63`): one `Submission` per oracle response, in response
order. -/
def get_solana_submit_signatures_submissions
    (rescaleFn : RustDecimal → Nat → RustDecimal)
    (responses : List OracleResponse) : List Submission :=
  responses.map (encodeSubmission rescaleFn)

/-! ## Consensus instruction pair (`src/utils.rs:155-276`)

`get_update_consensus_ix` extracts the consensus values
(`extract_consensus_values`, infallible: a value that fails to parse becomes
`i128::MAX`), the oracle keys (`extract_oracle_keys`, typed error on a
missing first feed response, a hex-decode failure, or a decoded pubkey that
is not 32 bytes), and the secp signature batch (`build_secp_signatures`,
typed error on a hex/base64 decode failure or a decoded eth-address /
signature / checksum that is not 20 / 64 / 32 bytes), then calls the external
`Secp256k1InstructionUtils::build_secp256k1_instruction` (its failure mapped
to a typed error) and finally reads `oracle_keys[instruction_index]` with
`instruction_index = 0` — an unchecked index that panics when the oracle-key
list is empty.

Strings are modelled as `Nat` byte lists; the external hex / base64 decoders
and the `i128` string parser enter as parameters, as does the external secp
instruction builder. The `?` operator / `collect::<AppResult<Vec<_>>>()`
short-circuiting is `exceptMapList`. -/

/-- Modelled strings: opaque byte lists. -/
abbrev Str := List Nat

/-- The `AppError` variants produced by `src/utils.rs` consensus-path code:
every failure there is an `AppError::ParsingError` (its message string is not
modelled). -/
inductive AppErrM where
  | parsingError : AppErrM
deriving DecidableEq, Repr

/-- One entry of `oracle_response.feed_responses`: the field read by
`extract_oracle_keys`. -/
structure ConsFeedResponse where
  oraclePubkey : Str
deriving DecidableEq, Repr

/-- One entry of `price_signatures.oracle_responses`, reduced to the fields
read by `extract_oracle_keys` and `build_secp_signatures`. -/
structure ConsOracleResponse where
  feedResponses : List ConsFeedResponse
  ethAddress : Str
  signature : Str
  checksum : Str
  recoveryId : Nat
deriving DecidableEq, Repr

/-- One entry of `price_signatures.median_responses`: the value string read
by `extract_consensus_values`. -/
structure MedianResponse where
  value : Str
deriving DecidableEq, Repr

/-- The gateway consensus response, reduced to the two lists
`get_update_consensus_ix` consumes. -/
structure FetchSignaturesConsensusResponse where
  medianResponses : List MedianResponse
  oracleResponses : List ConsOracleResponse
deriving DecidableEq, Repr

/-- A secp256k1 signature tuple as assembled by `build_secp_signatures`. -/
structure SecpSignature where
  ethAddress : List Nat
  signature : List Nat
  message : List Nat
  recoveryId : Nat
deriving DecidableEq, Repr

/-- Short-circuiting element-wise map, the embedding of mapping a fallible
closure over an iterator and collecting into `AppResult<Vec<_>>`: the first
element error aborts the whole map. -/
def exceptMapList (f : α → Except ε β) : List α → Except ε (List β)
  | [] => .ok []
  | a :: rest =>
    match f a with
    | .error e => .error e
    | .ok b =>
      match exceptMapList f rest with
      | .error e => .error e
      | .ok bs => .ok (b :: bs)

/-- `extract_consensus_values` (`src/utils.rs:155-161`), parameterised by the
external `str::parse::<i128>` (`parseI128`): a median value that fails to
parse becomes `i128::MAX` via `unwrap_or`. -/
def extract_consensus_values (parseI128 : Str → Option Int)
    (ps : FetchSignaturesConsensusResponse) : List Int :=
  ps.medianResponses.map fun mr => (parseI128 mr.value).getD i128Max

/-- Per-element body of `extract_oracle_keys` (`src/utils.rs:163-183`):
first feed response required, its oracle pubkey hex-decoded, and the decoded
bytes required to be exactly 32. -/
def extractOracleKey (hexDec : Str → Option (List Nat))
    (r : ConsOracleResponse) : Except AppErrM (List Nat) :=
  match r.feedResponses.head? with
  | none => .error .parsingError
  | some fr =>
    match hexDec fr.oraclePubkey with
    | none => .error .parsingError
    | some bytes => if bytes.length = 32 then .ok bytes else .error .parsingError

/-- `extract_oracle_keys` (`src/utils.rs:163-183`): collected over all oracle
responses, short-circuiting on the first typed error. -/
def extract_oracle_keys (hexDec : Str → Option (List Nat))
    (ps : FetchSignaturesConsensusResponse) : Except AppErrM (List (List Nat)) :=
  exceptMapList (extractOracleKey hexDec) ps.oracleResponses

/-- Per-element body of `build_secp_signatures` (`src/utils.rs:185-215`):
hex-decode the eth address into 20 bytes, base64-decode the signature into
64 bytes and the checksum into 32 bytes, each failure a typed error. -/
def buildSecpSignature (hexDec b64Dec : Str → Option (List Nat))
    (r : ConsOracleResponse) : Except AppErrM SecpSignature :=
  match hexDec r.ethAddress with
  | none => .error .parsingError
  | some ea =>
    if ea.length = 20 then
      match b64Dec r.signature with
      | none => .error .parsingError
      | some sg =>
        if sg.length = 64 then
          match b64Dec r.checksum with
          | none => .error .parsingError
          | some ck =>
            if ck.length = 32 then .ok ⟨ea, sg, ck, r.recoveryId⟩
            else .error .parsingError
        else .error .parsingError
    else .error .parsingError

/-- `build_secp_signatures` (`src/utils.rs:185-215`): collected over all
oracle responses, short-circuiting on the first typed error. -/
def build_secp_signatures (hexDec b64Dec : Str → Option (List Nat))
    (ps : FetchSignaturesConsensusResponse) : Except AppErrM (List SecpSignature) :=
  exceptMapList (buildSecpSignature hexDec b64Dec) ps.oracleResponses

/-- The submission instruction of the consensus pair, reduced to the dynamic
payload this repository fixes: the slot, the aggregated values, and the
anchoring first oracle whose account pair extends the account list (the fixed
program-derived accounts come from external constants and are elided). -/
structure SubmitConsensusIx where
  slot : Nat
  values : List Int
  anchorOracle : List Nat
deriving DecidableEq, Repr

/-- Outcome of `get_update_consensus_ix`: the instruction pair (the secp
instruction is the external builder's token), a typed `AppError`, or a Rust
panic (`oracle_keys[0]` on an empty list). -/
inductive ConsensusIxResult where
  | ok : Nat → SubmitConsensusIx → ConsensusIxResult
  | err : AppErrM → ConsensusIxResult
  | panik : ConsensusIxResult
deriving DecidableEq, Repr

/-- `get_update_consensus_ix` (`src/utils.rs:225-276`), parameterised by the
external decoders and by the external secp instruction builder `buildSecp`
(`none` modelling its error, mapped by the source to a typed
`ParsingError`). After the builder succeeds, the source reads
`oracle_keys[instruction_index]` with `instruction_index = 0`, unchecked. -/
def get_update_consensus_ix (parseI128 : Str → Option Int)
    (hexDec b64Dec : Str → Option (List Nat))
    (buildSecp : List SecpSignature → Option Nat)
    (ps : FetchSignaturesConsensusResponse) (slot : Nat) : ConsensusIxResult :=
  let values := extract_consensus_values parseI128 ps
  match extract_oracle_keys hexDec ps with
  | .error e => .err e
  | .ok oracleKeys =>
    match build_secp_signatures hexDec b64Dec ps with
    | .error e => .err e
    | .ok secpSigs =>
      match buildSecp secpSigs with
      | none => .err .parsingError
      | some secpIx =>
        match oracleKeys.head? with
        | none => .panik
        | some oracle => .ok secpIx ⟨slot, values, oracle⟩

/-! ## Helper lemmas -/

/-- Short-circuiting map errors as soon as one element of the list maps to an
error. -/
theorem exceptMapList_error_of_mem {f : α → Except ε β} {l : List α} {a : α}
    (hmem : a ∈ l) (ha : ∃ e, f a = .error e) :
    ∃ e, exceptMapList f l = .error e := by
  induction l with
  | nil => cases hmem
  | cons b t ih =>
    rcases List.mem_cons.mp hmem with rfl | hmem
    · obtain ⟨e, he⟩ := ha
      exact ⟨e, by simp [exceptMapList, he]⟩
    · cases hfb : f b with
      | error e => exact ⟨e, by simp [exceptMapList, hfb]⟩
      | ok v =>
        obtain ⟨e', he'⟩ := ih hmem
        exact ⟨e', by simp [exceptMapList, hfb, he']⟩

/-- An event trace consisting only of RPC requests keeps the
acquired-already flag satisfied. -/
theorem acqBeforeRpcAux_replicate_rpc (n : Nat) :
    acqBeforeRpcAux true (List.replicate n RpcEv.rpc) = true := by
  induction n with
  | zero => rfl
  | succ n ih => simpa [List.replicate_succ, acqBeforeRpcAux] using ih

/-! ## Claim theorems -/

/-- C1: the claim states that `get_multiple_accounts` preserves input order
(the i-th output entry corresponds to the i-th input key) regardless of the
concurrency limit. The code collects chunk results with `buffer_unordered`,
i.e. in completion order: on ten keys (chunks `[0..4]`, `[5..9]` and the
empty remainder) a run in which the second chunk's RPC response arrives
before the first — realisable with the default concurrency limit of 5 —
yields the second chunk's accounts first, so the output does not match the
input order, although its length is still exactly 10; only the in-dispatch-
order reassembly (`completionOrder = [0, 1, 2]`, forced by a concurrency
limit of 1) matches the claimed output. -/
theorem get_multiple_accounts_completion_order_divergence :
    get_multiple_accounts (fun c => some (c.map some)) [1, 0, 2]
        [0, 1, 2, 3, 4, 5, 6, 7, 8, 9] ≠
      [0, 1, 2, 3, 4, 5, 6, 7, 8, 9].map some ∧
    (get_multiple_accounts (fun c => some (c.map some)) [1, 0, 2]
        [0, 1, 2, 3, 4, 5, 6, 7, 8, 9]).length = 10 ∧
    get_multiple_accounts (fun c => some (c.map some)) [0, 1, 2]
        [0, 1, 2, 3, 4, 5, 6, 7, 8, 9] =
      [0, 1, 2, 3, 4, 5, 6, 7, 8, 9].map some := by decide

/-- C2: the claim states that in both submission pipelines the i-th failover
attempt dispatches to `gateways[i]`. On the two-gateway list `[10, 20]` where
gateway 10 fails and gateway 20 succeeds, the consensus pipeline behaves as
claimed (success from gateway 20 after exactly 2 attempts), but the
per-oracle pipeline's first attempt indexes `queue_gateways[0 + 8]`, out of
bounds, and panics instead of dispatching to `gateways[0]`. -/
theorem failover_offset_divergence :
    submitConsensusRetryLoop
        (fun g : Nat => if g = 20 then Except.ok g else Except.error 7)
        [10, 20] 0 = RunResult.success 20 2 ∧
      submitResponseRetryLoop
        (fun g : Nat => if g = 20 then Except.ok g else Except.error 7)
        [10, 20] 0 = RunResult.panik := by decide

/-- C4: the claim states that on an empty resolved gateway list the retry
loops fail immediately with exhaustion after zero attempts and never index
out of bounds. Both loops enter their body unconditionally and evaluate
`queue_gateways[retry]` (respectively `queue_gateways[retry + 8]`) on the
empty list: an out-of-bounds index, i.e. a panic, not an exhaustion
failure. -/
theorem failover_empty_list_panics :
    submitConsensusRetryLoop (fun _ : Nat => (Except.error 7 : Except Nat Nat))
        [] 0 = RunResult.panik ∧
      submitResponseRetryLoop (fun _ : Nat => (Except.error 7 : Except Nat Nat))
        [] 0 = RunResult.panik := by decide

/-- C6: in the per-oracle submission encoding, an oracle response carrying a
value with mantissa `X` at decimal scale 18 encodes to a submission value
equal to `X` (decoding a reported `X` with `from_i128_with_scale(X, 18)` and
encoding back to a mantissa is the identity), and a response with an absent
value encodes to the maximum-signed-128-bit sentinel, which is not zero. The
hypothesis is the documented behaviour of the external `Decimal::rescale` on
the value in question: rescaling to the scale the value already has leaves it
unchanged. -/
theorem submission_encode_roundtrip_and_sentinel
    (rescaleFn : RustDecimal → Nat → RustDecimal) (X : Int)
    (o rid : Nat) (sig : List Nat)
    (hres : rescaleFn (fromI128WithScale X 18) 18 = fromI128WithScale X 18) :
    (encodeSubmission rescaleFn
        ⟨some (fromI128WithScale X 18), o, rid, sig⟩).value = X ∧
      (encodeSubmission rescaleFn ⟨none, o, rid, sig⟩).value = i128Max ∧
      i128Max ≠ 0 := by
  refine ⟨?_, rfl, by unfold i128Max; norm_num⟩
  show (rescaleFn (fromI128WithScale X 18) 18).mantissa = X
  rw [hres]
  rfl

/-- Witness for C6 at `X = 42` with the identity modelling of `rescale` at
equal scale. -/
theorem submission_encode_roundtrip_and_sentinel_witness :
    ((fun (d : RustDecimal) (_ : Nat) => d) (fromI128WithScale 42 18) 18 =
        fromI128WithScale 42 18) ∧
      ((encodeSubmission (fun d _ => d)
          ⟨some (fromI128WithScale 42 18), 1, 0, [3]⟩).value = 42 ∧
        (encodeSubmission (fun d _ => d) ⟨none, 1, 0, [3]⟩).value = i128Max ∧
        i128Max ≠ 0) :=
  ⟨rfl, submission_encode_roundtrip_and_sentinel (fun d _ => d) 42 1 0 [3] rfl⟩

/-- C7: decoding an account buffer that is shorter than 8 bytes, or whose
leading 8 bytes differ from the expected discriminator, always fails with the
invalid-account error — and never attempts the fixed-layout byte
reinterpretation, which is why the conclusion holds for every `reinterpret`
function. -/
theorem parse_swb_short_or_bad_discriminator_errors {φ : Type}
    (disc : List Nat) (recordSize : Nat) (reinterpret : List Nat → Option φ)
    (data : List Nat) (h : data.length < 8 ∨ data.take 8 ≠ disc) :
    parse_swb_ignore_alignment disc recordSize reinterpret data =
      ParseResult.invalidAccount := by
  by_cases hl : data.length < 8
  · simp [parse_swb_ignore_alignment, hl]
  · rcases h with h | h
    · exact absurd h hl
    · simp [parse_swb_ignore_alignment, hl, h]

/-- Witness for C7: a two-byte buffer fails the length bound and decodes to
the invalid-account error for an arbitrary reinterpretation. -/
theorem parse_swb_short_or_bad_discriminator_errors_witness :
    (([0, 0] : List Nat).length < 8 ∨
        ([0, 0] : List Nat).take 8 ≠ [1, 2, 3, 4, 5, 6, 7, 8]) ∧
      parse_swb_ignore_alignment [1, 2, 3, 4, 5, 6, 7, 8] 100
          (fun _ => some (0 : Nat)) [0, 0] = ParseResult.invalidAccount :=
  ⟨Or.inl (by decide),
    parse_swb_short_or_bad_discriminator_errors [1, 2, 3, 4, 5, 6, 7, 8] 100
      (fun _ => some (0 : Nat)) [0, 0] (Or.inl (by decide))⟩

/-- C9: the feed-account decoder is not total over well-discriminated
buffers: whenever the leading 8 bytes equal the expected discriminator but
the buffer is shorter than 8 plus the record size, the slice
`data[8..8 + recordSize]` is out of bounds and the decoder panics instead of
returning the invalid-account error — the length validation checks only the
8-byte discriminator bound. -/
theorem parse_swb_well_discriminated_short_buffer_panics {φ : Type}
    (disc : List Nat) (recordSize : Nat) (reinterpret : List Nat → Option φ)
    (data : List Nat) (h8 : 8 ≤ data.length) (hd : data.take 8 = disc)
    (hshort : data.length < 8 + recordSize) :
    parse_swb_ignore_alignment disc recordSize reinterpret data =
      ParseResult.panik := by
  unfold parse_swb_ignore_alignment
  rw [if_neg (by omega), if_neg (by simp [hd]), if_neg (by omega)]

/-- Witness for C9: a nine-byte buffer starting with the expected
discriminator, against a 100-byte record layout, panics. -/
theorem parse_swb_well_discriminated_short_buffer_panics_witness :
    8 ≤ ([1, 2, 3, 4, 5, 6, 7, 8, 9] : List Nat).length ∧
      ([1, 2, 3, 4, 5, 6, 7, 8, 9] : List Nat).take 8 = [1, 2, 3, 4, 5, 6, 7, 8] ∧
      ([1, 2, 3, 4, 5, 6, 7, 8, 9] : List Nat).length < 8 + 100 ∧
      parse_swb_ignore_alignment [1, 2, 3, 4, 5, 6, 7, 8] 100
          (fun _ => some (0 : Nat)) [1, 2, 3, 4, 5, 6, 7, 8, 9] =
        ParseResult.panik :=
  ⟨by decide, by decide, by decide,
    parse_swb_well_discriminated_short_buffer_panics [1, 2, 3, 4, 5, 6, 7, 8]
      100 (fun _ => some (0 : Nat)) [1, 2, 3, 4, 5, 6, 7, 8, 9]
      (by decide) (by decide) (by decide)⟩

/-- C3 counterexample: the claim states that the number of available permits
never exceeds the capacity 15 in any interleaving of acquisition, release and
refill ticks. The state with 16 available permits is reachable: acquire one
permit (15 → 14 available, one call in flight), let a refill tick read 14 and
top the count back up to 15 while the call is still in flight, then let the
call complete and release its permit — 16 available permits. -/
theorem rate_budget_available_can_exceed_capacity :
    BudgetReachable ⟨16, 0, none⟩ ∧ rqsRate < 16 := by
  constructor
  · have s1 : BudgetStep budgetInit ⟨14, 1, none⟩ :=
      BudgetStep.acquire 15 0 none (by decide)
    have s2 : BudgetStep ⟨14, 1, none⟩ ⟨14, 1, some 14⟩ :=
      BudgetStep.tickRead 14 1
    have s3 : BudgetStep ⟨14, 1, some 14⟩ ⟨15, 1, none⟩ := by
      have h := BudgetStep.tickAdd 14 1 14
      norm_num [rqsRate] at h
      exact h
    have s4 : BudgetStep ⟨15, 1, none⟩ ⟨16, 0, none⟩ :=
      BudgetStep.release 15 1 none (by decide)
    exact Relation.ReflTransGen.tail
      (Relation.ReflTransGen.tail
        (Relation.ReflTransGen.tail
          (Relation.ReflTransGen.tail Relation.ReflTransGen.refl s1) s2) s3) s4
  · decide

/-- C3 (amended): a refill tick reads the available count and adds exactly
`capacity − available` permits (nothing when the count is at or above
capacity), so a tick whose read and add run without interleaved acquisitions
or releases, from a state with at most `capacity` available permits, leaves
exactly `capacity` available — but `available ≤ capacity` is not an
invariant, as `rate_budget_available_can_exceed_capacity` shows. -/
theorem rate_budget_tick_refills_to_capacity (a o : Nat) (h : a ≤ rqsRate) :
    BudgetStep ⟨a, o, none⟩ ⟨a, o, some a⟩ ∧
      BudgetStep ⟨a, o, some a⟩ ⟨rqsRate, o, none⟩ := by
  refine ⟨BudgetStep.tickRead a o, ?_⟩
  have h15 : a + (if a < rqsRate then rqsRate - a else 0) = rqsRate := by
    simp only [rqsRate] at *
    split <;> omega
  have hstep := BudgetStep.tickAdd a o a
  rwa [h15] at hstep

/-- Witness for the amended C3 at 3 available permits and 2 calls in
flight. -/
theorem rate_budget_tick_refills_to_capacity_witness :
    (3 ≤ rqsRate) ∧
      (BudgetStep ⟨3, 2, none⟩ ⟨3, 2, some 3⟩ ∧
        BudgetStep ⟨3, 2, some 3⟩ ⟨rqsRate, 2, none⟩) :=
  ⟨by decide, rate_budget_tick_refills_to_capacity 3 2 (by decide)⟩

/-- C5 counterexample: the claim states that `get_update_consensus_ix`
returns a typed error — rather than succeeding or aborting — whenever the
extracted oracle-key list is empty. The source has no emptiness check: after
the external secp256k1 instruction builder returns, it reads
`oracle_keys[instruction_index]` unchecked. On a consensus response with no
oracle responses (so an empty extracted key list), instantiating the external
builder as one that accepts the empty signature batch, the function panics on
that index instead of returning a typed error. -/
theorem get_update_consensus_ix_empty_panics :
    get_update_consensus_ix (fun _ => none) (fun _ => none) (fun _ => none)
      (fun _ => some 0) ⟨[], []⟩ 5 = ConsensusIxResult.panik := by decide

/-- C5 (amended): whenever some oracle response's eth-address, signature or
checksum field fails to decode to its expected fixed byte length (the exact
failure cases of `buildSecpSignature`), `get_update_consensus_ix` returns a
typed error; when the oracle-response list is empty, the function has no
typed-error path of its own — it returns a typed error exactly when the
external secp instruction builder rejects the empty batch, and otherwise
panics on the unchecked first-oracle-key index. -/
theorem get_update_consensus_ix_decode_error_and_empty_behavior
    (parseI128 : Str → Option Int) (hexDec b64Dec : Str → Option (List Nat))
    (buildSecp : List SecpSignature → Option Nat)
    (ps : FetchSignaturesConsensusResponse) (slot : Nat) :
    (∀ r ∈ ps.oracleResponses,
      (∃ e, buildSecpSignature hexDec b64Dec r = .error e) →
        ∃ e, get_update_consensus_ix parseI128 hexDec b64Dec buildSecp ps slot =
          ConsensusIxResult.err e) ∧
    (ps.oracleResponses = [] →
      get_update_consensus_ix parseI128 hexDec b64Dec buildSecp ps slot =
        match buildSecp [] with
        | none => ConsensusIxResult.err AppErrM.parsingError
        | some _ => ConsensusIxResult.panik) := by
  constructor
  · intro r hmem hbad
    cases hk : extract_oracle_keys hexDec ps with
    | error e => exact ⟨e, by simp [get_update_consensus_ix, hk]⟩
    | ok keys =>
      obtain ⟨e, he⟩ := exceptMapList_error_of_mem hmem hbad
      exact ⟨e, by
        simp [get_update_consensus_ix, hk, build_secp_signatures, he]⟩
  · intro hemp
    cases hb : buildSecp [] <;>
      simp [get_update_consensus_ix, extract_oracle_keys,
        build_secp_signatures, hemp, exceptMapList, hb]

/-- Witness for the amended C5: a single response whose signature field fails
base64 decoding yields a typed error, and the empty response with an
empty-batch-accepting builder yields the panic. -/
theorem get_update_consensus_ix_decode_error_and_empty_behavior_witness :
    (∃ e, get_update_consensus_ix (fun _ => none)
        (fun _ => some [0]) (fun _ => none) (fun _ => some 0)
        ⟨[], [⟨[⟨List.replicate 64 0⟩], List.replicate 40 0, [1], [2], 0⟩]⟩ 5 =
      ConsensusIxResult.err e) ∧
    get_update_consensus_ix (fun _ => none) (fun _ => some [0]) (fun _ => none)
        (fun _ => some 0) ⟨[], []⟩ 5 = ConsensusIxResult.panik :=
  ⟨((get_update_consensus_ix_decode_error_and_empty_behavior (fun _ => none)
        (fun _ => some [0]) (fun _ => none) (fun _ => some 0)
        ⟨[], [⟨[⟨List.replicate 64 0⟩], List.replicate 40 0, [1], [2], 0⟩]⟩ 5).1
      _ (List.mem_singleton.mpr rfl)
      ⟨AppErrM.parsingError, rfl⟩),
    ((get_update_consensus_ix_decode_error_and_empty_behavior (fun _ => none)
        (fun _ => some [0]) (fun _ => none) (fun _ => some 0) ⟨[], []⟩ 5).2 rfl)⟩

/-- C8 counterexample: the claim states that every RPC-issuing operation
first acquires one unit from the shared rate budget before the request is
sent. `call_instructions` issues the `simulate_transaction` RPC request with
no budget acquisition anywhere in the method. -/
theorem call_instructions_rpc_without_acquire :
    acqBeforeRpc (call_instructions_events true) = false ∧
      RpcEv.rpc ∈ call_instructions_events true := by decide

/-- C8 (amended): the account, blockhash, slot and multi-account read
operations acquire one budget unit before issuing any RPC request (the
multi-account fetch acquires a single unit covering all of its chunk
requests), and when the budget primitive is shut down they fail at the
acquisition and issue no RPC request; the transaction-simulation operation
(`call_instructions`) is the exception established by the counterexample. -/
theorem read_ops_acquire_before_rpc (budgetOpen : Bool) (keys : List Nat) :
    acqBeforeRpc (get_account_events budgetOpen) = true ∧
    acqBeforeRpc (get_latest_blockhash_events budgetOpen) = true ∧
    acqBeforeRpc (get_slot_events budgetOpen) = true ∧
    acqBeforeRpc (get_multiple_accounts_events budgetOpen keys) = true ∧
    (get_account_events false).contains RpcEv.rpc = false ∧
    (get_latest_blockhash_events false).contains RpcEv.rpc = false ∧
    (get_slot_events false).contains RpcEv.rpc = false ∧
    (get_multiple_accounts_events false keys).contains RpcEv.rpc = false := by
  cases budgetOpen <;> by_cases hk : keys.length = 0 <;>
    simp [get_account_events, get_latest_blockhash_events, get_slot_events,
      get_multiple_accounts_events, acqBeforeRpc, acqBeforeRpcAux, hk,
      acqBeforeRpcAux_replicate_rpc, List.contains]

/-- Gateway resolution panics whenever some present account has at least the
8-byte header but its trailing bytes fail the oracle-record
reinterpretation. -/
theorem resolveGateways_panik_of_bad
    (reinterpret : List Nat → Option OracleAccountData) :
    ∀ accounts : List (Option SolAccount),
      (∃ acct : SolAccount, some acct ∈ accounts ∧ 8 ≤ acct.data.length ∧
        reinterpret (acct.data.drop 8) = none) →
      resolveGateways reinterpret accounts = ResolveResult.panik := by
  intro accounts
  induction accounts with
  | nil => rintro ⟨acct, hmem, _, _⟩; cases hmem
  | cons a t ih =>
    rintro ⟨acct, hmem, hlen, hre⟩
    rcases List.mem_cons.mp hmem with heq | hmem'
    · subst heq
      simp only [resolveGateways]
      rw [if_neg (by omega)]
      simp [hre]
    · have hp := ih ⟨acct, hmem', hlen, hre⟩
      cases a with
      | none => simpa [resolveGateways] using hp
      | some b =>
        by_cases hb : b.data.length < 8
        · simp [resolveGateways, hb]
        · cases hrb : reinterpret (b.data.drop 8) with
          | none => simp [resolveGateways, hb, hrb]
          | some rec =>
            cases hg : rec.gatewayUri with
            | none => simp [resolveGateways, hb, hrb, hg, hp]
            | some uri => simp [resolveGateways, hb, hrb, hg, hp]

/-- When every present account has the 8-byte header and reinterprets
successfully, gateway resolution succeeds and returns exactly the gateway
URIs of the present, URI-carrying accounts, in input order. -/
theorem resolveGateways_ok_of_wellformed
    (reinterpret : List Nat → Option OracleAccountData) :
    ∀ accounts : List (Option SolAccount),
      (∀ acct : SolAccount, some acct ∈ accounts →
        8 ≤ acct.data.length ∧ (reinterpret (acct.data.drop 8)).isSome) →
      resolveGateways reinterpret accounts =
        ResolveResult.ok (accounts.filterMap fun a =>
          match a with
          | none => none
          | some acct =>
            match reinterpret (acct.data.drop 8) with
            | none => none
            | some record => record.gatewayUri) := by
  intro accounts
  induction accounts with
  | nil => intro _; rfl
  | cons a t ih =>
    intro h
    have ht := ih fun acct hm => h acct (List.mem_cons_of_mem _ hm)
    cases a with
    | none => simpa [resolveGateways, List.filterMap_cons] using ht
    | some b =>
      obtain ⟨hlen, hsome⟩ := h b (List.mem_cons_self _ _)
      cases hrb : reinterpret (b.data.drop 8) with
      | none => rw [hrb] at hsome; simp at hsome
      | some rec =>
        cases hg : rec.gatewayUri with
        | none =>
          simp [resolveGateways, Nat.not_lt.mpr hlen, hrb, hg, ht,
            List.filterMap_cons]
        | some uri =>
          simp [resolveGateways, Nat.not_lt.mpr hlen, hrb, hg, ht,
            List.filterMap_cons]

/-- C10: gateway resolution is not failure-tolerant for malformed oracle
accounts: a fetched account that is present but whose trailing bytes (after
the 8-byte header) fail to reinterpret as an oracle record makes the resolver
panic at the unchecked `unwrap`, instead of being logged and skipped; only
absent accounts and records without a gateway address are skipped, in which
case resolution returns the gateway URIs of the remaining accounts in input
order. -/
theorem resolveGateways_unwrap_panics_only_absent_skipped
    (reinterpret : List Nat → Option OracleAccountData)
    (accounts : List (Option SolAccount)) :
    ((∃ acct : SolAccount, some acct ∈ accounts ∧ 8 ≤ acct.data.length ∧
        reinterpret (acct.data.drop 8) = none) →
      resolveGateways reinterpret accounts = ResolveResult.panik) ∧
    ((∀ acct : SolAccount, some acct ∈ accounts →
        8 ≤ acct.data.length ∧ (reinterpret (acct.data.drop 8)).isSome) →
      resolveGateways reinterpret accounts =
        ResolveResult.ok (accounts.filterMap fun a =>
          match a with
          | none => none
          | some acct =>
            match reinterpret (acct.data.drop 8) with
            | none => none
            | some record => record.gatewayUri)) :=
  ⟨resolveGateways_panik_of_bad reinterpret accounts,
    resolveGateways_ok_of_wellformed reinterpret accounts⟩

/-- Witness for C10: with a reinterpretation that rejects exactly the tail
`[9]`, a present nine-byte account ending in 9 makes resolution panic, while
an absent account followed by a well-formed account with gateway URI 5
resolves to `[5]`. -/
theorem resolveGateways_unwrap_panics_only_absent_skipped_witness :
    resolveGateways
        (fun l => if l = [9] then none else some ⟨some 5⟩)
        [some ⟨[0, 1, 2, 3, 4, 5, 6, 7, 9]⟩] = ResolveResult.panik ∧
      resolveGateways
        (fun l => if l = [9] then none else some ⟨some 5⟩)
        [none, some ⟨[0, 1, 2, 3, 4, 5, 6, 7, 1]⟩] = ResolveResult.ok [5] := by
  constructor
  · exact (resolveGateways_unwrap_panics_only_absent_skipped
      (fun l => if l = [9] then none else some ⟨some 5⟩)
      [some ⟨[0, 1, 2, 3, 4, 5, 6, 7, 9]⟩]).1
      ⟨⟨[0, 1, 2, 3, 4, 5, 6, 7, 9]⟩, List.mem_singleton.mpr rfl,
        by decide, by decide⟩
  · have h := (resolveGateways_unwrap_panics_only_absent_skipped
      (fun l => if l = [9] then none else some ⟨some 5⟩)
      [none, some ⟨[0, 1, 2, 3, 4, 5, 6, 7, 1]⟩]).2 ?_
    · exact h.trans (by decide)
    · intro acct hmem
      simp only [List.mem_cons, List.mem_singleton] at hmem
      rcases hmem with h1 | h2 | h3
      · simp at h1
      · obtain rfl : acct = ⟨[0, 1, 2, 3, 4, 5, 6, 7, 1]⟩ := Option.some.inj h2
        exact ⟨by decide, by decide⟩
      · simp at h3
